import Mathlib

/-
Verification of the request/cache dispatch layer and the fantasy scoring
engine of a Dota2 API client (opendota/opendota.py).

The Python code is shallowly embedded as pure Lean functions:

* JSON documents are the inductive type `Json`; Python `None` is `Json.null`.
* Python dicts whose keys are strings are association lists with first-match
  lookup (`dictGet`), in-place assignment (`dictSet` — replaces the value of
  an existing key in place, otherwise appends, exactly like `d[k] = v`) and
  `dict.update` (`dictUpdate`).
* `OpenDota.request` becomes `request`.  The ambient state of one call is
  passed explicitly: the state of the cache file for the given filename
  (`cache : Option (Option Json)` — absent, present-but-unreadable/invalid,
  or present and parsing to a value) and the decoded JSON of the network
  response (`respBody : Option Json`, `none` meaning the body failed to
  parse, which the code propagates as an exception).  The outcome records
  the returned value (`Except Unit Json`, `.error ()` for a propagated
  exception), whether a network call was issued, the sleep performed, the
  final request URL, the Authorization header carried by the session, the
  POST body, the cache write performed, and whether a warning was logged.
* `urlsplit`/`urlunsplit`: the code only ever splits `self.api_url` and glues
  the pieces back together, so the configuration carries the API URL already
  in split form (`SplitUrl`), and `urlunsplit` mirrors the Python library
  function.
* `OpenDota.get_fantasy_points` becomes `playerFantasy`/`get_fantasy_points`
  over an explicit match record; numeric metric values are rationals.
  A missing multiplier key (Python `KeyError` in `self.fantasy[param]`)
  makes the result `none`.
* `OpenDota.get_constants` becomes `get_constants`; the calls it makes to
  `self.get` are recorded in a trace, and the results that those calls would
  deliver are supplied by oracles (`constNames`, `fetchConst`).
-/

/-- JSON values as deserialized by `json.loads`; `null` doubles as Python
`None`. -/
inductive Json where
  | null
  | bool (b : Bool)
  | num (q : ℚ)
  | str (s : String)
  | arr (elems : List Json)
  | obj (fields : List (String × Json))

/-- First-match lookup in an association list, i.e. `d[k]` / `d.get(k)` of a
Python dict (a Python dict holds each key once, so first match is the
match). -/
def dictGet {α : Type} : List (String × α) → String → Option α
  | [], _ => none
  | kv :: rest, k => if kv.1 = k then some kv.2 else dictGet rest k

/-- Python `d.get(k, v)`. -/
def dictGetD {α : Type} (d : List (String × α)) (k : String) (v : α) : α :=
  (dictGet d k).getD v

/-- Python `d[k] = v`: replace the value of an existing key in place,
otherwise append the pair at the end. -/
def dictSet {α : Type} : List (String × α) → String → α → List (String × α)
  | [], k, v => [(k, v)]
  | kv :: rest, k, v => if kv.1 = k then (k, v) :: rest else kv :: dictSet rest k v

/-- Python `d.update(u)`: assign every pair of `u`, in order, into `d`. -/
def dictUpdate {α : Type} (d u : List (String × α)) : List (String × α) :=
  u.foldl (fun acc kv => dictSet acc kv.1 kv.2) d

/-- Python string slicing `s[:n]`. -/
def strTake (s : String) (n : Nat) : String := ⟨s.data.take n⟩

/-- Whether the first list is an initial segment of the second. -/
def charsPre : List Char → List Char → Bool
  | [], _ => true
  | _ :: _, [] => false
  | a :: as, b :: bs => a = b && charsPre as bs

/-- Whether `needle` occurs as a contiguous run inside the second list. -/
def charsSub (needle : List Char) : List Char → Bool
  | [] => needle.isEmpty
  | c :: rest => charsPre needle (c :: rest) || charsSub needle rest

/-- Python `needle in hay` for strings: substring containment. -/
def strContains (hay needle : String) : Bool :=
  charsSub needle.data hay.data

/-- The five components produced by `urllib.parse.urlsplit`. -/
structure SplitUrl where
  scheme : String
  netloc : String
  path : String
  query : String
  fragment : String
deriving DecidableEq

/-- `urllib.parse.urlunsplit`, transcribed from CPython. -/
def urlunsplit (u : SplitUrl) : String :=
  let url := u.path
  let url :=
    if u.netloc ≠ "" ∨ (url ≠ "" ∧ strTake url 2 = "//") then
      "//" ++ u.netloc ++ (if url ≠ "" ∧ strTake url 1 ≠ "/" then "/" ++ url else url)
    else url
  let url := if u.scheme ≠ "" then u.scheme ++ ":" ++ url else url
  let url := if u.query ≠ "" then url ++ "?" ++ u.query else url
  if u.fragment ≠ "" then url ++ "#" ++ u.fragment else url

/-- The query-string serialization of `request`:
`"&".join([f"{k}={v}" for k, v in data.items()])` — note that no
percent-encoding of keys or values takes place. -/
def joinQuery (d : List (String × String)) : String :=
  String.intercalate "&" (d.map (fun kv => kv.1 ++ "=" ++ kv.2))

/-- Python truthiness of a parsed JSON value. -/
def pyTruthy : Json → Bool
  | .null => false
  | .bool b => b
  | .num q => q ≠ 0
  | .str s => s ≠ ""
  | .arr xs => !xs.isEmpty
  | .obj fs => !fs.isEmpty

/-- Whether a JSON value is the string "error" (Python `"error" == elem` is
false whenever `elem` is not a string). -/
def isErrorStr : Json → Bool
  | .str s => s = "error"
  | _ => false

/-- Python `"error" in json_data`: key membership for dicts, element
membership for lists, substring test for strings, and a `TypeError`
(modelled as `.error ()`) for the non-iterable values `null`, booleans and
numbers. -/
def containsError : Json → Except Unit Bool
  | .obj fs => .ok (fs.any (fun kv => kv.1 = "error"))
  | .arr xs => .ok (xs.any isErrorStr)
  | .str s => .ok (strContains s "error")
  | _ => .error ()

/-- Python `json_data["error"]`, as evaluated eagerly inside the warning
f-string of source line 240: a dict subscript yields the stored value (or
raises `KeyError` when absent); subscripting a list or a string with a
string key — or subscripting a non-subscriptable value — raises
`TypeError`.  Every raise is modelled as `.error ()`. -/
def errorSubscript : Json → Except Unit Json
  | .obj fs =>
    match dictGet fs "error" with
    | some v => .ok v
    | none => .error ()
  | _ => .error ()

/-- The configuration of an `OpenDota` instance after `__post_init__`, as
far as `request` consults it: `api_key`, `delay`, and `api_url` in split
form. -/
structure ODConfig where
  apiKey : Option String
  delay : Nat
  apiUrl : SplitUrl

/-- Observable outcome of one `OpenDota.request` call. -/
structure RequestOutcome where
  result : Except Unit Json
  networkCalled : Bool
  slept : Option Nat
  requestUrl : Option String
  authHeader : Option String
  postBody : Option (List (String × String))
  cacheWrite : Option (String × Json)
  warned : Bool

/-- The query data actually sent: `data = data or {}`, then
`data["api_key"] = self.api_key` when an API key is configured. -/
def finalParams (cfg : ODConfig) (data : Option (List (String × String))) :
    List (String × String) :=
  match cfg.apiKey with
  | none => data.getD []
  | some k => dictSet (data.getD []) "api_key" k

/-- The part of `OpenDota.request` that runs on a cache miss (source lines
217-246): sleep or attach the API key, build the query URL from the split
`api_url`, issue the GET or POST, decode and parse the body, apply the
`error` check, and finally write the cache file.  In the error branch the
warning f-string evaluates `json_data["error"]` before anything is logged
or returned, so when that subscript raises (list or string body) the
exception propagates with no warning and no `None` return. -/
def networkPart (cfg : ODConfig) (url : String) (post : Bool)
    (data : Option (List (String × String))) (filename : Option String)
    (respBody : Option Json) : RequestOutcome :=
  let d1 := finalParams cfg data
  let slept := if cfg.apiKey.isNone then some cfg.delay else none
  let qstr := if post then cfg.apiUrl.query else joinQuery d1
  let qurl := urlunsplit
    { scheme := cfg.apiUrl.scheme, netloc := cfg.apiUrl.netloc,
      path := cfg.apiUrl.path ++ url, query := qstr, fragment := cfg.apiUrl.fragment }
  let auth := cfg.apiKey.map (fun k => "Bearer " ++ k)
  let body := if post then some d1 else none
  let rww : Except Unit Json × Option (String × Json) × Bool :=
    match respBody with
    | none => (.error (), none, false)
    | some j =>
      if pyTruthy j then
        match containsError j with
        | .error () => (.error (), none, false)
        | .ok true =>
          match errorSubscript j with
          | .error () => (.error (), none, false)
          | .ok _ => (.ok .null, none, true)
        | .ok false => (.ok j, filename.map (fun fn => (fn, j)), false)
      else (.ok j, filename.map (fun fn => (fn, j)), false)
  { result := rww.1, networkCalled := true, slept := slept, requestUrl := some qurl,
    authHeader := auth, postBody := body, cacheWrite := rww.2.1, warned := rww.2.2 }

/-- `OpenDota.request` (source lines 169-246).  The cache consultation of
lines 203-215: with a filename, `force` false, the file present and
readable as JSON, return the cached value at once; any failure of the read
is swallowed and the network path is taken. -/
def request (cfg : ODConfig) (url : String) (post : Bool)
    (data : Option (List (String × String))) (filename : Option String) (force : Bool)
    (cache : Option (Option Json)) (respBody : Option Json) : RequestOutcome :=
  let cacheHit : Option Json :=
    match filename, force, cache with
    | some _, false, some (some j) => some j
    | _, _, _ => none
  match cacheHit with
  | some j =>
    { result := .ok j, networkCalled := false, slept := none, requestUrl := none,
      authHeader := none, postBody := none, cacheWrite := none, warned := false }
  | none => networkPart cfg url post data filename respBody

/-- The default `api_url` (`OPENDOTA_API_URL`) in split form. -/
def defaultApiUrl : SplitUrl :=
  { scheme := "https", netloc := "api.opendota.com", path := "/api",
    query := "", fragment := "" }

/-- The default fantasy multipliers (`FANTASY`, source lines 58-83), as exact
rationals. -/
def FANTASYq : List (String × ℚ) :=
  [("kills", 3/10), ("deaths", -(3/10)), ("assists", 0), ("last_hits", 3/1000),
   ("gold_per_min", 2/1000), ("xp_per_min", 0), ("tower_kills", 1),
   ("tower_damage", 0), ("hero_damage", 0), ("courier_kills", 0),
   ("observer_kills", 0), ("sentry_kills", 0), ("roshan_kills", 1),
   ("teamfight", 3), ("observer_placed", 1/2), ("sentry_placed", 0),
   ("camps_stacked", 1/2), ("runes_grabbed", 1/4), ("first_blood", 4),
   ("stuns", 1/20), ("hero_healing", 0), ("deaths_base", 3)]

/-- The fantasy configuration produced by `__post_init__` (source lines
162-165): a copy of `FANTASY` updated with the user-supplied override. -/
def postInitFantasy (override : Option (List (String × ℚ))) : List (String × ℚ) :=
  match override with
  | none => FANTASYq
  | some u => dictUpdate FANTASYq u

/-- The fields of one entry of `match['players']` that `get_fantasy_points`
reads. -/
structure Player where
  player_slot : Int
  account_id : Int
  name : String
  kills : ℚ
  deaths : ℚ
  assists : ℚ
  last_hits : ℚ
  denies : ℚ
  gold_per_min : ℚ
  xp_per_min : ℚ
  tower_kills : ℚ
  tower_damage : ℚ
  hero_damage : ℚ
  courier_kills : ℚ
  observer_kills : ℚ
  sentry_kills : ℚ
  roshan_kills : ℚ
  teamfight_participation : ℚ
  obs_placed : ℚ
  sen_placed : ℚ
  camps_stacked : ℚ
  rune_pickups : ℚ
  firstblood_claimed : Bool
  stuns : ℚ
  hero_healing : ℚ

/-- The fields of `match['radiant_team']` / `match['dire_team']` that
`get_fantasy_points` reads. -/
structure MatchTeam where
  team_id : Int
  name : String

/-- The fields of a match record that `get_fantasy_points` reads. -/
structure MatchRec where
  players : List Player
  radiant_win : Bool
  radiant_team : MatchTeam
  dire_team : MatchTeam

/-- The raw metric extraction of `get_fantasy_points` (source lines
603-667): the fixed sequence of metric names with their point values,
in source order. -/
def metricEntries (p : Player) : List (String × ℚ) :=
  [("kills", p.kills), ("deaths", p.deaths), ("assists", p.assists),
   ("last_hits", p.last_hits + p.denies), ("gold_per_min", p.gold_per_min),
   ("xp_per_min", p.xp_per_min), ("tower_kills", p.tower_kills),
   ("tower_damage", p.tower_damage), ("hero_damage", p.hero_damage),
   ("courier_kills", p.courier_kills), ("observer_kills", p.observer_kills),
   ("sentry_kills", p.sentry_kills), ("roshan_kills", p.roshan_kills),
   ("teamfight", p.teamfight_participation), ("observer_placed", p.obs_placed),
   ("sentry_placed", p.sen_placed), ("camps_stacked", p.camps_stacked),
   ("runes_grabbed", p.rune_pickups),
   ("first_blood", if p.firstblood_claimed then 1 else 0),
   ("stuns", p.stuns), ("hero_healing", p.hero_healing)]

/-- One iteration of the scoring loop (source lines 670-674):
`score = fantasy.get(param + "_base", 0) + fantasy[param] * value`.
`none` models the `KeyError` raised when `fantasy[param]` is missing.
The produced triple is (metric name, value, score). -/
def scoreEntry (fan : List (String × ℚ)) (pv : String × ℚ) : Option (String × ℚ × ℚ) :=
  (dictGet fan pv.1).map
    (fun mult => (pv.1, pv.2, dictGetD fan (pv.1 ++ "_base") 0 + mult * pv.2))

/-- The scoring loop over all metric entries; fails if any multiplier lookup
fails. -/
def scoreEntries (fan : List (String × ℚ)) :
    List (String × ℚ) → Option (List (String × ℚ × ℚ))
  | [] => some []
  | e :: es =>
    match scoreEntry fan e with
    | none => none
    | some x => (scoreEntries fan es).map (fun xs => x :: xs)

/-- The per-player fantasy profile built by `get_fantasy_points`. -/
structure FantasyProfile where
  slot : Int
  side : String
  account_id : Int
  team_id : Int
  name : String
  team : String
  result : String
  fantasy : List (String × ℚ × ℚ)
  total_score : ℚ

/-- The body of the per-player loop of `get_fantasy_points` (source lines
583-679): side from the slot threshold, team from the side, win/loss from
`radiant_win`, then the scored metrics and their sum. -/
def playerFantasy (fan : List (String × ℚ)) (m : MatchRec) (p : Player) :
    Option FantasyProfile :=
  let side := if p.player_slot < 5 then "radiant" else "dire"
  let team := if side = "radiant" then m.radiant_team else m.dire_team
  let res := if m.radiant_win = (side == "radiant") then "win" else "loss"
  (scoreEntries fan (metricEntries p)).map
    (fun entries =>
      { slot := p.player_slot, side := side, account_id := p.account_id,
        team_id := team.team_id, name := p.name, team := team.name, result := res,
        fantasy := entries,
        total_score := (entries.map (fun e => e.2.2)).sum })

/-- Sequence a list of optional values, failing if any entry fails. -/
def seqOption {α : Type} : List (Option α) → Option (List α)
  | [] => some []
  | none :: _ => none
  | some x :: os => (seqOption os).map (fun xs => x :: xs)

/-- `OpenDota.get_fantasy_points` (source lines 565-681), applied to the
match record delivered by `get_match`: one fantasy profile per entry of
`match['players']`, in order.  It is a pure function of the match record
and the fantasy configuration. -/
def get_fantasy_points (fan : List (String × ℚ)) (m : MatchRec) :
    Option (List FantasyProfile) :=
  seqOption (m.players.map (playerFantasy fan m))

/-- Record of one `self.get(url, filename=..., ...)` call issued by
`get_constants`. -/
structure GetCall where
  url : String
  filename : String
deriving DecidableEq

/-- The runtime type of the `resource` argument of `get_constants`:
Python `None`, a string, a list of strings, or a value of any other type
(dict, int, ...). -/
inductive ResourceArg where
  | pynone
  | str (s : String)
  | list (xs : List String)
  | other
deriving DecidableEq

/-- Observable outcome of one `get_constants` call: its return value
(`none` models returning Python `None`), the `self.get` calls it issued,
and whether `LOGGER.error` was invoked. -/
structure ConstantsOutcome where
  result : Option (List (String × Json))
  calls : List GetCall
  loggedError : Bool

/-- The loop of `get_constants` over resource names (source lines 311-316);
`fetchConst` supplies the value each `self.get` call delivers. -/
def constantsLoop (fetchConst : String → Json) (rs : List String) :
    List (String × Json) × List GetCall :=
  (rs.map (fun r => (r, fetchConst r)),
   rs.map (fun r =>
     { url := "/constants/" ++ r, filename := "constants_" ++ r ++ ".json" }))

/-- `OpenDota.get_constants` (source lines 289-316).  A string argument is
wrapped into a one-element list; a non-`None` argument that is neither a
string nor a list is logged as an error and answered with `None` before any
`self.get` call; `None` first fetches the resource-name list
(`get_constant_names`, whose value the oracle `constNames` supplies). -/
def get_constants (constNames : List String) (fetchConst : String → Json) :
    ResourceArg → ConstantsOutcome
  | .other => { result := none, calls := [], loggedError := true }
  | .str s =>
    let lc := constantsLoop fetchConst [s]
    { result := some lc.1, calls := lc.2, loggedError := false }
  | .list xs =>
    let lc := constantsLoop fetchConst xs
    { result := some lc.1, calls := lc.2, loggedError := false }
  | .pynone =>
    let lc := constantsLoop fetchConst constNames
    { result := some lc.1,
      calls := { url := "/constants", filename := "constants.json" } :: lc.2,
      loggedError := false }

/-- A synthetic player: `kills=5, deaths=2`, all other metrics zero. -/
def examplePlayer : Player :=
  { player_slot := 0, account_id := 101, name := "p1",
    kills := 5, deaths := 2, assists := 0, last_hits := 0, denies := 0,
    gold_per_min := 0, xp_per_min := 0, tower_kills := 0, tower_damage := 0,
    hero_damage := 0, courier_kills := 0, observer_kills := 0, sentry_kills := 0,
    roshan_kills := 0, teamfight_participation := 0, obs_placed := 0,
    sen_placed := 0, camps_stacked := 0, rune_pickups := 0,
    firstblood_claimed := false, stuns := 0, hero_healing := 0 }

/-- A synthetic one-player match won by radiant. -/
def exampleMatch : MatchRec :=
  { players := [examplePlayer], radiant_win := true,
    radiant_team := { team_id := 1, name := "R" },
    dire_team := { team_id := 2, name := "D" } }

/-- A configuration with no API key and the default delay of 3 seconds. -/
def cfgAnon : ODConfig :=
  { apiKey := none, delay := 3, apiUrl := defaultApiUrl }

/-- A configuration with API key "KEY". -/
def cfgKeyed : ODConfig :=
  { apiKey := some "KEY", delay := 3, apiUrl := defaultApiUrl }

theorem networkPart_networkCalled (cfg : ODConfig) (url : String) (post : Bool)
    (data : Option (List (String × String))) (filename : Option String)
    (respBody : Option Json) :
    (networkPart cfg url post data filename respBody).networkCalled = true := rfl

theorem request_eq_networkPart (cfg : ODConfig) (url : String) (post : Bool)
    (data : Option (List (String × String))) (filename : Option String) (force : Bool)
    (cache : Option (Option Json)) (respBody : Option Json)
    (h : (request cfg url post data filename force cache respBody).networkCalled = true) :
    request cfg url post data filename force cache respBody =
      networkPart cfg url post data filename respBody := by
  cases filename with
  | none => rfl
  | some fn =>
    cases force with
    | true => rfl
    | false =>
      cases cache with
      | none => rfl
      | some c =>
        cases c with
        | none => rfl
        | some j => simp [request] at h

/-- Claim C1: with a cache filename and `force=False`, a readable cache file
that parses as JSON is returned immediately and no network request is
issued; an absent or unreadable-or-invalid cache file is a swallowed miss
after which the live network path runs; and with `force=True` the network
path runs regardless of cache state. -/
theorem claim_C1_cache_read_dispatch (cfg : ODConfig) (url : String) (post : Bool)
    (data : Option (List (String × String))) (fn : String)
    (cache : Option (Option Json)) (respBody : Option Json) :
    (∀ j, cache = some (some j) →
      (request cfg url post data (some fn) false cache respBody).result = Except.ok j ∧
      (request cfg url post data (some fn) false cache respBody).networkCalled = false) ∧
    ((cache = none ∨ cache = some none) →
      request cfg url post data (some fn) false cache respBody =
        networkPart cfg url post data (some fn) respBody ∧
      (request cfg url post data (some fn) false cache respBody).networkCalled = true) ∧
    (request cfg url post data (some fn) true cache respBody).networkCalled = true := by
  refine ⟨?_, ?_, ?_⟩
  · rintro j rfl
    exact ⟨rfl, rfl⟩
  · rintro (rfl | rfl) <;> exact ⟨rfl, rfl⟩
  · cases cache with
    | none => rfl
    | some c => cases c <;> rfl

/-- Closed instance of claim C1 at concrete inputs. -/
theorem claim_C1_witness :
    (request cfgAnon "/heroes" false none (some "heroes.json") false
      (some (some (Json.num 7))) none).result = Except.ok (Json.num 7) ∧
    (request cfgAnon "/heroes" false none (some "heroes.json") false
      (some (some (Json.num 7))) none).networkCalled = false ∧
    (request cfgAnon "/heroes" false none (some "heroes.json") false
      (some none) none).networkCalled = true := by
  have h1 := claim_C1_cache_read_dispatch cfgAnon "/heroes" false none "heroes.json"
    (some (some (Json.num 7))) none
  have h2 := claim_C1_cache_read_dispatch cfgAnon "/heroes" false none "heroes.json"
    (some none) none
  exact ⟨(h1.1 _ rfl).1, (h1.1 _ rfl).2, (h2.2.1 (Or.inr rfl)).2⟩

/-- Claim C4: every network-issuing call sleeps for the configured delay
before the request when no API key is configured, and does not sleep at all
when an API key is configured.  In `networkPart` the sleep is performed, as
in the source, before the request is issued. -/
theorem claim_C4_rate_limit_delay (cfg : ODConfig) (url : String) (post : Bool)
    (data : Option (List (String × String))) (filename : Option String) (force : Bool)
    (cache : Option (Option Json)) (respBody : Option Json)
    (hnet : (request cfg url post data filename force cache respBody).networkCalled = true) :
    (cfg.apiKey = none →
      (request cfg url post data filename force cache respBody).slept = some cfg.delay) ∧
    (∀ k, cfg.apiKey = some k →
      (request cfg url post data filename force cache respBody).slept = none) := by
  rw [request_eq_networkPart cfg url post data filename force cache respBody hnet]
  constructor
  · intro h
    simp [networkPart, h]
  · intro k h
    simp [networkPart, h]

/-- Closed instance of claim C4 at concrete inputs. -/
theorem claim_C4_witness :
    (request cfgAnon "/live" false none none false none (some (Json.obj []))).slept =
      some 3 ∧
    (request cfgKeyed "/live" false none none false none (some (Json.obj []))).slept =
      none := by
  have h1 := claim_C4_rate_limit_delay cfgAnon "/live" false none none false none
    (some (Json.obj [])) rfl
  have h2 := claim_C4_rate_limit_delay cfgKeyed "/live" false none none false none
    (some (Json.obj [])) rfl
  exact ⟨h1.1 rfl, h2.2 "KEY" rfl⟩

/-- Claim C2 counterexample: a response body `null` with a cache filename.
The parsed value `None` is falsy, so the error check is skipped, the
function returns `None` — and the cache file IS written (with `null`),
although the result is null.  This contradicts the claim that a cache write
occurs exactly when the result is non-null. -/
theorem claim_C2_counterexample :
    (request cfgAnon "/heroes" false none (some "heroes.json") false none
      (some Json.null)).result = Except.ok Json.null ∧
    (request cfgAnon "/heroes" false none (some "heroes.json") false none
      (some Json.null)).cacheWrite = some ("heroes.json", Json.null) :=
  ⟨rfl, rfl⟩

theorem dictGet_some_of_any {α : Type} (k : String) :
    ∀ d : List (String × α), d.any (fun kv => kv.1 = k) = true →
      ∃ v, dictGet d k = some v := by
  intro d
  induction d with
  | nil => intro h; simp at h
  | cons kv rest ih =>
    intro h
    by_cases hk : kv.1 = k
    · exact ⟨kv.2, by simp [dictGet, hk]⟩
    · simp only [List.any_cons, hk, decide_False, Bool.false_or] at h
      rcases ih h with ⟨v, hv⟩
      exact ⟨v, by simp [dictGet, hk, hv]⟩

/-- Claim C2 (amended): on a parsed body that is a top-level object with an
`error` key, request logs a warning and returns `None`, and no cache write
occurs; and a cache write of the parsed body to the given filename
(overwriting any existing entry) occurs exactly when a filename was given,
the body parsed, and the error branch was neither taken nor raised.  In
particular a body parsing to `null` (falsy) is also written, while a
truthy non-object body on which the membership check fires or raises
produces no write because the call raises before the write. -/
theorem claim_C2_error_sentinel_and_cache_write (cfg : ODConfig) (url : String)
    (post : Bool) (data : Option (List (String × String))) (filename : Option String)
    (force : Bool) (cache : Option (Option Json)) (respBody : Option Json)
    (hnet : (request cfg url post data filename force cache respBody).networkCalled = true) :
    (∀ fs, respBody = some (Json.obj fs) →
      fs.any (fun kv => kv.1 = "error") = true →
      (request cfg url post data filename force cache respBody).result =
        Except.ok Json.null ∧
      (request cfg url post data filename force cache respBody).warned = true ∧
      (request cfg url post data filename force cache respBody).cacheWrite = none) ∧
    (∀ fn j, filename = some fn → respBody = some j →
      (pyTruthy j = false ∨ containsError j = Except.ok false) →
      (request cfg url post data filename force cache respBody).cacheWrite =
        some (fn, j) ∧
      (request cfg url post data filename force cache respBody).result = Except.ok j) ∧
    (filename = none →
      (request cfg url post data filename force cache respBody).cacheWrite = none) ∧
    (respBody = none →
      (request cfg url post data filename force cache respBody).cacheWrite = none ∧
      (request cfg url post data filename force cache respBody).result =
        Except.error ()) ∧
    (∀ j, respBody = some j → pyTruthy j = true → containsError j = Except.error () →
      (request cfg url post data filename force cache respBody).cacheWrite = none ∧
      (request cfg url post data filename force cache respBody).result =
        Except.error ()) ∧
    (∀ j, respBody = some j → pyTruthy j = true → containsError j = Except.ok true →
      errorSubscript j = Except.error () →
      (request cfg url post data filename force cache respBody).cacheWrite = none ∧
      (request cfg url post data filename force cache respBody).result =
        Except.error () ∧
      (request cfg url post data filename force cache respBody).warned = false) := by
  rw [request_eq_networkPart cfg url post data filename force cache respBody hnet]
  refine ⟨?_, ?_, ?_, ?_, ?_, ?_⟩
  · rintro fs rfl hany
    have htr : pyTruthy (Json.obj fs) = true := by
      cases fs with
      | nil => simp at hany
      | cons a as => rfl
    have hc : containsError (Json.obj fs) = Except.ok true := by
      simp [containsError, hany]
    rcases dictGet_some_of_any "error" fs hany with ⟨v, hv⟩
    have hsub : errorSubscript (Json.obj fs) = Except.ok v := by
      simp [errorSubscript, hv]
    refine ⟨?_, ?_, ?_⟩ <;> simp [networkPart, htr, hc, hsub]
  · rintro fn j rfl rfl (h | h)
    · constructor <;> simp [networkPart, h]
    · by_cases ht : pyTruthy j <;> constructor <;> simp [networkPart, ht, h]
  · rintro rfl
    rcases respBody with _ | j
    · rfl
    · by_cases ht : pyTruthy j
      · rcases hc : containsError j with e | b
        · simp [networkPart, ht, hc]
        · cases b with
          | false => simp [networkPart, ht, hc]
          | true =>
            rcases hsub : errorSubscript j with e | v <;>
              simp [networkPart, ht, hc, hsub]
      · simp [networkPart, ht]
  · rintro rfl
    exact ⟨rfl, rfl⟩
  · rintro j rfl ht hc
    constructor <;> simp [networkPart, ht, hc]
  · rintro j rfl ht hc hsub
    refine ⟨?_, ?_, ?_⟩ <;> simp [networkPart, ht, hc, hsub]

/-- Closed instance of the amended claim C2 at concrete inputs: an object
body with an `error` key yields the sentinel and no write; a good body
with a filename is written. -/
theorem claim_C2_witness :
    (request cfgAnon "/matches/1" false none (some "match_1.json") false none
      (some (Json.obj [("error", Json.str "rate limit exceeded")]))).result =
      Except.ok Json.null ∧
    (request cfgAnon "/matches/1" false none (some "match_1.json") false none
      (some (Json.obj [("error", Json.str "rate limit exceeded")]))).cacheWrite =
      none ∧
    (request cfgAnon "/matches/1" false none (some "match_1.json") false none
      (some (Json.obj [("a", Json.num 1)]))).cacheWrite =
      some ("match_1.json", Json.obj [("a", Json.num 1)]) := by
  have h1 := claim_C2_error_sentinel_and_cache_write cfgAnon "/matches/1" false none
    (some "match_1.json") false none
    (some (Json.obj [("error", Json.str "rate limit exceeded")])) rfl
  have h2 := claim_C2_error_sentinel_and_cache_write cfgAnon "/matches/1" false none
    (some "match_1.json") false none
    (some (Json.obj [("a", Json.num 1)])) rfl
  exact ⟨(h1.1 _ rfl rfl).1, (h1.1 _ rfl rfl).2.2,
    (h2.2.1 _ _ rfl rfl (Or.inr rfl)).1⟩

/-- Claim C9 counterexample: for the body `["error"]` the membership test
fires, but the warning f-string then subscripts the list with the string
"error" and the source raises `TypeError` — `request` does not return
`None`, logs no warning, and writes no cache entry, contradicting the
claim that it returns `None`. -/
theorem claim_C9_counterexample :
    (request cfgAnon "/teams" false none (some "teams.json") false none
      (some (Json.arr [Json.str "error"]))).result = Except.error () ∧
    (request cfgAnon "/teams" false none (some "teams.json") false none
      (some (Json.arr [Json.str "error"]))).warned = false ∧
    (request cfgAnon "/teams" false none (some "teams.json") false none
      (some (Json.arr [Json.str "error"]))).cacheWrite = none :=
  ⟨rfl, rfl, rfl⟩

/-- Claim C9 (amended): the error check is a Python membership test on the
parsed value — for a non-empty JSON array containing the string "error" it
fires, not only for top-level objects with an `error` key — but the
warning line then evaluates `json_data["error"]`, a string subscript of a
list, which raises `TypeError`: the exception propagates, so no `None` is
returned, no warning is logged, and nothing is cached. -/
theorem claim_C9_array_error_typeerror (cfg : ODConfig) (url : String) (post : Bool)
    (data : Option (List (String × String))) (filename : Option String) (force : Bool)
    (cache : Option (Option Json)) (xs : List Json)
    (hmem : Json.str "error" ∈ xs)
    (hnet : (request cfg url post data filename force cache
      (some (Json.arr xs))).networkCalled = true) :
    containsError (Json.arr xs) = Except.ok true ∧
    (request cfg url post data filename force cache (some (Json.arr xs))).result =
      Except.error () ∧
    (request cfg url post data filename force cache (some (Json.arr xs))).warned =
      false ∧
    (request cfg url post data filename force cache (some (Json.arr xs))).cacheWrite =
      none := by
  rw [request_eq_networkPart _ _ _ _ _ _ _ _ hnet]
  have ht : pyTruthy (Json.arr xs) = true := by
    cases hmem <;> rfl
  have hany : xs.any isErrorStr = true := List.any_eq_true.mpr ⟨_, hmem, rfl⟩
  have hc : containsError (Json.arr xs) = Except.ok true := by
    simp [containsError, hany]
  have hsub : errorSubscript (Json.arr xs) = Except.error () := rfl
  refine ⟨hc, ?_, ?_, ?_⟩ <;> simp [networkPart, ht, hc, hsub]

/-- Closed instance of the amended claim C9 at a concrete input. -/
theorem claim_C9_witness :
    containsError (Json.arr [Json.str "error"]) = Except.ok true ∧
    (request cfgAnon "/heroes" false none none false none
      (some (Json.arr [Json.str "error"]))).result = Except.error () ∧
    (request cfgAnon "/heroes" false none none false none
      (some (Json.arr [Json.str "error"]))).cacheWrite = none := by
  have h := claim_C9_array_error_typeerror cfgAnon "/heroes" false none none false
    none [Json.str "error"] (List.Mem.head _) rfl
  exact ⟨h.1, h.2.1, h.2.2.2⟩

theorem dictGet_dictSet_self {α : Type} (d : List (String × α)) (k : String) (v : α) :
    dictGet (dictSet d k v) k = some v := by
  induction d with
  | nil => simp [dictSet, dictGet]
  | cons kv rest ih =>
    by_cases h : kv.1 = k
    · simp [dictSet, h, dictGet]
    · simp [dictSet, h, dictGet, ih]

theorem strTake_one_append (s t : String) (h : strTake s 1 = "/") :
    strTake (s ++ t) 1 = "/" := by
  have hd : s.data.take 1 = ['/'] := congrArg String.data h
  unfold strTake
  rw [String.data_append]
  cases hs : s.data with
  | nil => rw [hs] at hd; simp at hd
  | cons c cs =>
    rw [hs] at hd
    simp at hd
    subst hd
    rfl

theorem scheme_colon_slashes (s n p : String) :
    s ++ ":" ++ ("//" ++ n ++ p) = s ++ "://" ++ n ++ p := by
  have h1 : s ++ ":" ++ "//" = s ++ "://" := by
    rw [String.append_assoc]
    exact congrArg (fun x => s ++ x) (by rfl)
  simp only [← String.append_assoc]
  rw [h1]

theorem urlunsplit_plain (u : SplitUrl) (hs : u.scheme ≠ "") (hn : u.netloc ≠ "")
    (hp : strTake u.path 1 = "/") (hf : u.fragment = "") :
    urlunsplit u = u.scheme ++ "://" ++ u.netloc ++ u.path ++
      (if u.query = "" then "" else "?" ++ u.query) := by
  show (let url := u.path;
    let url :=
      if u.netloc ≠ "" ∨ url ≠ "" ∧ strTake url 2 = "//" then
        "//" ++ u.netloc ++ if url ≠ "" ∧ strTake url 1 ≠ "/" then "/" ++ url else url
      else url;
    let url := if u.scheme ≠ "" then u.scheme ++ ":" ++ url else url;
    let url := if u.query ≠ "" then url ++ "?" ++ u.query else url;
    if u.fragment ≠ "" then url ++ "#" ++ u.fragment else url) = _
  simp only []
  rw [if_pos (Or.inl hn)]
  have h1 : ¬ (u.path ≠ "" ∧ strTake u.path 1 ≠ "/") := fun h => h.2 hp
  rw [if_neg h1, if_pos hs, hf]
  rw [if_neg (by simp : ¬ ("" : String) ≠ "")]
  by_cases hq : u.query = ""
  · rw [if_neg (fun h => h hq), if_pos hq, String.append_empty]
    exact scheme_colon_slashes u.scheme u.netloc u.path
  · rw [if_pos hq, if_neg hq, scheme_colon_slashes, String.append_assoc]

/-- Claim C6 counterexample: a POST request with an API key configured.  The
Authorization header is carried and the key is placed into the request BODY,
but the request URL contains no `api_key` query parameter, contradicting the
claim that the parameter is appended to the URL for GET and POST alike (for
POST the code never touches the URL query component). -/
theorem claim_C6_counterexample :
    (request cfgKeyed "/request/1" true none none false none
      (some (Json.obj []))).authHeader = some "Bearer KEY" ∧
    (request cfgKeyed "/request/1" true none none false none
      (some (Json.obj []))).requestUrl =
      some "https://api.opendota.com/api/request/1" ∧
    strContains "https://api.opendota.com/api/request/1" "api_key" = false ∧
    (request cfgKeyed "/request/1" true none none false none
      (some (Json.obj []))).postBody = some [("api_key", "KEY")] :=
  ⟨rfl, rfl, rfl, rfl⟩

/-- Claim C6 (amended): with an API key configured, every network-issuing
request carries the header `Authorization: Bearer <api_key>`, and the
parameter `api_key=<key>` is placed into the sent query data — which is
serialized into the URL query string for GET, and sent as the request body
(not the URL) for POST. -/
theorem claim_C6_api_key_attachment (cfg : ODConfig) (url : String) (post : Bool)
    (data : Option (List (String × String))) (filename : Option String) (force : Bool)
    (cache : Option (Option Json)) (respBody : Option Json) (k : String)
    (hk : cfg.apiKey = some k)
    (hnet : (request cfg url post data filename force cache respBody).networkCalled = true) :
    (request cfg url post data filename force cache respBody).authHeader =
      some ("Bearer " ++ k) ∧
    dictGet (finalParams cfg data) "api_key" = some k ∧
    (post = false →
      (request cfg url post data filename force cache respBody).requestUrl =
        some (urlunsplit
          { scheme := cfg.apiUrl.scheme, netloc := cfg.apiUrl.netloc,
            path := cfg.apiUrl.path ++ url,
            query := joinQuery (finalParams cfg data),
            fragment := cfg.apiUrl.fragment }) ∧
      (request cfg url post data filename force cache respBody).postBody = none) ∧
    (post = true →
      (request cfg url post data filename force cache respBody).postBody =
        some (finalParams cfg data) ∧
      (request cfg url post data filename force cache respBody).requestUrl =
        some (urlunsplit
          { scheme := cfg.apiUrl.scheme, netloc := cfg.apiUrl.netloc,
            path := cfg.apiUrl.path ++ url, query := cfg.apiUrl.query,
            fragment := cfg.apiUrl.fragment })) := by
  rw [request_eq_networkPart cfg url post data filename force cache respBody hnet]
  refine ⟨?_, ?_, ?_, ?_⟩
  · simp [networkPart, hk]
  · simp [finalParams, hk, dictGet_dictSet_self]
  · rintro rfl
    exact ⟨rfl, rfl⟩
  · rintro rfl
    exact ⟨rfl, rfl⟩

/-- Closed instance of the amended claim C6 at concrete inputs. -/
theorem claim_C6_witness :
    (request cfgKeyed "/heroes" false none none false none
      (some (Json.obj []))).authHeader = some "Bearer KEY" ∧
    (request cfgKeyed "/heroes" false none none false none
      (some (Json.obj []))).requestUrl =
      some "https://api.opendota.com/api/heroes?api_key=KEY" ∧
    (request cfgKeyed "/request/1" true none none false none
      (some (Json.obj []))).postBody = some [("api_key", "KEY")] := by
  have h1 := claim_C6_api_key_attachment cfgKeyed "/heroes" false none none false none
    (some (Json.obj [])) "KEY" rfl rfl
  have h2 := claim_C6_api_key_attachment cfgKeyed "/request/1" true none none false
    none (some (Json.obj [])) "KEY" rfl rfl
  exact ⟨h1.1, (h1.2.2.1 rfl).1, (h2.2.2.2 rfl).1⟩

/-- Claim C7: for a plain API base URL (non-empty scheme and host, a
slash-initial path, no query, no fragment — the default satisfies this),
every network-issuing GET request has URL `base_url ++ path` followed by
the query parameters serialized as `k=v` pairs joined by `&` with no
percent-encoding (`joinQuery` is literal concatenation), and every POST
request sends the parameters as the request body with the URL being just
`base_url ++ path`. -/
theorem claim_C7_url_construction (cfg : ODConfig) (url : String) (post : Bool)
    (data : Option (List (String × String))) (filename : Option String) (force : Bool)
    (cache : Option (Option Json)) (respBody : Option Json)
    (hs : cfg.apiUrl.scheme ≠ "") (hn : cfg.apiUrl.netloc ≠ "")
    (hp : strTake cfg.apiUrl.path 1 = "/")
    (hq : cfg.apiUrl.query = "") (hf : cfg.apiUrl.fragment = "")
    (hnet : (request cfg url post data filename force cache respBody).networkCalled = true) :
    urlunsplit cfg.apiUrl =
      cfg.apiUrl.scheme ++ "://" ++ cfg.apiUrl.netloc ++ cfg.apiUrl.path ∧
    (post = false →
      (request cfg url post data filename force cache respBody).requestUrl =
        some (cfg.apiUrl.scheme ++ "://" ++ cfg.apiUrl.netloc ++ cfg.apiUrl.path ++
          url ++
          (if joinQuery (finalParams cfg data) = "" then ""
           else "?" ++ joinQuery (finalParams cfg data))) ∧
      (request cfg url post data filename force cache respBody).postBody = none) ∧
    (post = true →
      (request cfg url post data filename force cache respBody).requestUrl =
        some (cfg.apiUrl.scheme ++ "://" ++ cfg.apiUrl.netloc ++ cfg.apiUrl.path ++
          url) ∧
      (request cfg url post data filename force cache respBody).postBody =
        some (finalParams cfg data)) := by
  rw [request_eq_networkPart cfg url post data filename force cache respBody hnet]
  refine ⟨?_, ?_, ?_⟩
  · rw [urlunsplit_plain cfg.apiUrl hs hn hp hf, hq, if_pos rfl, String.append_empty]
  · rintro rfl
    refine ⟨?_, rfl⟩
    show some (urlunsplit
      { scheme := cfg.apiUrl.scheme, netloc := cfg.apiUrl.netloc,
        path := cfg.apiUrl.path ++ url,
        query := joinQuery (finalParams cfg data),
        fragment := cfg.apiUrl.fragment }) = _
    rw [urlunsplit_plain
      { scheme := cfg.apiUrl.scheme, netloc := cfg.apiUrl.netloc,
        path := cfg.apiUrl.path ++ url,
        query := joinQuery (finalParams cfg data),
        fragment := cfg.apiUrl.fragment } hs hn (strTake_one_append _ _ hp) hf]
    exact congrArg some (by simp only [← String.append_assoc])
  · rintro rfl
    refine ⟨?_, rfl⟩
    show some (urlunsplit
      { scheme := cfg.apiUrl.scheme, netloc := cfg.apiUrl.netloc,
        path := cfg.apiUrl.path ++ url, query := cfg.apiUrl.query,
        fragment := cfg.apiUrl.fragment }) = _
    rw [hq, urlunsplit_plain
      { scheme := cfg.apiUrl.scheme, netloc := cfg.apiUrl.netloc,
        path := cfg.apiUrl.path ++ url, query := "",
        fragment := cfg.apiUrl.fragment } hs hn (strTake_one_append _ _ hp) hf,
      if_pos rfl, String.append_empty]
    exact congrArg some (by simp only [← String.append_assoc])

/-- Closed instance of claim C7 at concrete inputs. -/
theorem claim_C7_witness :
    (request cfgAnon "/players/1/matches" false (some [("date", "180")]) none false
      none (some (Json.obj []))).requestUrl =
      some "https://api.opendota.com/api/players/1/matches?date=180" ∧
    (request cfgAnon "/request/1" true none none false none
      (some (Json.obj []))).requestUrl =
      some "https://api.opendota.com/api/request/1" := by
  have h1 := claim_C7_url_construction cfgAnon "/players/1/matches" false
    (some [("date", "180")]) none false none (some (Json.obj []))
    (by simp [cfgAnon, defaultApiUrl]) (by simp [cfgAnon, defaultApiUrl]) rfl rfl rfl
    rfl
  have h2 := claim_C7_url_construction cfgAnon "/request/1" true none none false none
    (some (Json.obj [])) (by simp [cfgAnon, defaultApiUrl])
    (by simp [cfgAnon, defaultApiUrl]) rfl rfl rfl rfl
  exact ⟨(h1.2.1 rfl).1, (h2.2.2 rfl).1⟩


theorem scoreEntry_some {fan : List (String × ℚ)} {pv : String × ℚ}
    {x : String × ℚ × ℚ} (h : scoreEntry fan pv = some x) :
    ∃ mult, dictGet fan pv.1 = some mult ∧
      x = (pv.1, pv.2, dictGetD fan (pv.1 ++ "_base") 0 + mult * pv.2) := by
  unfold scoreEntry at h
  rcases Option.map_eq_some'.mp h with ⟨mult, hm, hx⟩
  exact ⟨mult, hm, hx.symm⟩

theorem scoreEntries_spec (fan : List (String × ℚ)) :
    ∀ (es : List (String × ℚ)) (xs : List (String × ℚ × ℚ)),
      scoreEntries fan es = some xs →
      xs.map (fun e => (e.1, e.2.1)) = es ∧
      ∀ e ∈ xs, ∃ mult, dictGet fan e.1 = some mult ∧
        e.2.2 = dictGetD fan (e.1 ++ "_base") 0 + mult * e.2.1 := by
  intro es
  induction es with
  | nil =>
    intro xs h
    simp only [scoreEntries, Option.some.injEq] at h
    subst h
    simp
  | cons e es ih =>
    intro xs h
    cases hse : scoreEntry fan e with
    | none => simp [scoreEntries, hse] at h
    | some x =>
      simp only [scoreEntries, hse] at h
      rcases Option.map_eq_some'.mp h with ⟨ys, hrec, hxs⟩
      subst hxs
      obtain ⟨mult, hm, hx⟩ := scoreEntry_some hse
      obtain ⟨ih1, ih2⟩ := ih ys hrec
      constructor
      · subst hx
        simp [ih1]
      · intro f hf
        rcases List.mem_cons.mp hf with rfl | hf2
        · subst hx
          exact ⟨mult, hm, rfl⟩
        · exact ih2 f hf2

theorem playerFantasy_some_fields {fan : List (String × ℚ)} {m : MatchRec}
    {p : Player} {prof : FantasyProfile} (h : playerFantasy fan m p = some prof) :
    prof.side = (if p.player_slot < 5 then "radiant" else "dire") ∧
    prof.result =
      (if m.radiant_win = (prof.side == "radiant") then "win" else "loss") ∧
    prof.fantasy.map (fun e => (e.1, e.2.1)) = metricEntries p ∧
    (∀ e ∈ prof.fantasy, ∃ mult, dictGet fan e.1 = some mult ∧
      e.2.2 = dictGetD fan (e.1 ++ "_base") 0 + mult * e.2.1) ∧
    prof.total_score = (prof.fantasy.map (fun e => e.2.2)).sum := by
  unfold playerFantasy at h
  rcases Option.map_eq_some'.mp h with ⟨entries, hse, hpr⟩
  obtain ⟨hmap, hall⟩ := scoreEntries_spec fan (metricEntries p) entries hse
  subst hpr
  exact ⟨rfl, rfl, hmap, hall, rfl⟩

theorem seqFantasy_get (fan : List (String × ℚ)) (m : MatchRec) :
    ∀ (ps : List Player) (profs : List FantasyProfile),
      seqOption (ps.map (playerFantasy fan m)) = some profs →
      profs.length = ps.length ∧
      ∀ i (h1 : i < ps.length) (h2 : i < profs.length),
        playerFantasy fan m (ps.get ⟨i, h1⟩) = some (profs.get ⟨i, h2⟩) := by
  intro ps
  induction ps with
  | nil =>
    intro profs h
    simp only [List.map_nil, seqOption, Option.some.injEq] at h
    subst h
    exact ⟨rfl, fun i h1 h2 => absurd h1 (by simp)⟩
  | cons p ps ih =>
    intro profs h
    cases ho : playerFantasy fan m p with
    | none => simp [seqOption, ho] at h
    | some prof =>
      rw [List.map_cons, ho] at h
      simp only [seqOption] at h
      rcases Option.map_eq_some'.mp h with ⟨rest, hrec, hprofs⟩
      subst hprofs
      obtain ⟨hl, hg⟩ := ih rest hrec
      refine ⟨by simp [hl], ?_⟩
      intro i h1 h2
      cases i with
      | zero => simpa using ho
      | succ n =>
        exact hg n (by simpa using h1) (by simpa using h2)

/-- Claim C3: for every player and every recognized metric, the score is
`base(metric) + multiplier(metric) × value` with the base read from
`<metric>_base` and defaulting to 0, the scored metrics are exactly the
extracted metric entries with each metric appearing exactly once, and
`total_score` is the sum of the per-metric scores; on the synthetic player
with `kills=5, deaths=2` under the default configuration (kills multiplier
0.3, deaths multiplier -0.3, deaths base 3) the kills score is 1.5 and the
deaths score is 2.4.  The computation is deterministic because
`get_fantasy_points` is a pure function of the config and the match
record. -/
theorem claim_C3_fantasy_score_formula (fan : List (String × ℚ)) (m : MatchRec)
    (p : Player) (prof : FantasyProfile) (h : playerFantasy fan m p = some prof) :
    prof.fantasy.map (fun e => (e.1, e.2.1)) = metricEntries p ∧
    (∀ e ∈ prof.fantasy, ∃ mult, dictGet fan e.1 = some mult ∧
      e.2.2 = dictGetD fan (e.1 ++ "_base") 0 + mult * e.2.1) ∧
    prof.total_score = (prof.fantasy.map (fun e => e.2.2)).sum ∧
    ((metricEntries p).map Prod.fst).Nodup ∧
    (∀ fan2 m2, fan2 = fan → m2 = m →
      get_fantasy_points fan2 m2 = get_fantasy_points fan m) ∧
    (playerFantasy FANTASYq exampleMatch examplePlayer).map
      (fun pr => (dictGet pr.fantasy "kills", dictGet pr.fantasy "deaths")) =
      some (some (5, 1.5), some (2, 2.4)) := by
  obtain ⟨-, -, hmap, hall, hsum⟩ := playerFantasy_some_fields h
  have hnames : (metricEntries p).map Prod.fst =
      ["kills", "deaths", "assists", "last_hits", "gold_per_min", "xp_per_min",
       "tower_kills", "tower_damage", "hero_damage", "courier_kills",
       "observer_kills", "sentry_kills", "roshan_kills", "teamfight",
       "observer_placed", "sentry_placed", "camps_stacked", "runes_grabbed",
       "first_blood", "stuns", "hero_healing"] := rfl
  refine ⟨hmap, hall, hsum, by rw [hnames]; decide, ?_, ?_⟩
  · rintro fan2 m2 rfl rfl
    rfl
  · simp [playerFantasy, scoreEntries, scoreEntry, metricEntries, dictGet, dictGetD,
      FANTASYq, examplePlayer, exampleMatch]
    norm_num

/-- Closed instance of claim C3, via the example player of the spec. -/
theorem claim_C3_witness :
    (playerFantasy FANTASYq exampleMatch examplePlayer).map
      (fun pr => (dictGet pr.fantasy "kills", dictGet pr.fantasy "deaths")) =
      some (some (5, 1.5), some (2, 2.4)) := by
  have hex : ∃ prof, playerFantasy FANTASYq exampleMatch examplePlayer = some prof := by
    cases hsome : playerFantasy FANTASYq exampleMatch examplePlayer with
    | none =>
      exfalso
      simp [playerFantasy, scoreEntries, scoreEntry, metricEntries, dictGet, dictGetD,
        FANTASYq, examplePlayer, exampleMatch] at hsome
    | some prof => exact ⟨prof, rfl⟩
  obtain ⟨prof, hsome⟩ := hex
  exact (claim_C3_fantasy_score_formula FANTASYq exampleMatch examplePlayer prof
    hsome).2.2.2.2.2

/-- Claim C5: every fantasy profile's side is "radiant" exactly when the
player slot is below the threshold 5 (and "dire" at or above it), and its
result is "win" exactly when the match's `radiant_win` flag equals whether
the side is radiant, "loss" otherwise. -/
theorem claim_C5_side_and_result (fan : List (String × ℚ)) (m : MatchRec)
    (profs : List FantasyProfile) (h : get_fantasy_points fan m = some profs)
    (i : Nat) (hi : i < m.players.length) :
    profs.length = m.players.length ∧
    ∀ h2 : i < profs.length,
      (profs.get ⟨i, h2⟩).side =
        (if (m.players.get ⟨i, hi⟩).player_slot < 5 then "radiant" else "dire") ∧
      ((profs.get ⟨i, h2⟩).result = "win" ↔
        m.radiant_win = ((profs.get ⟨i, h2⟩).side == "radiant")) ∧
      ((profs.get ⟨i, h2⟩).result = "loss" ↔
        ¬ m.radiant_win = ((profs.get ⟨i, h2⟩).side == "radiant")) := by
  unfold get_fantasy_points at h
  obtain ⟨hl, hg⟩ := seqFantasy_get fan m m.players profs h
  refine ⟨hl, ?_⟩
  intro h2
  obtain ⟨hside, hres, -, -, -⟩ := playerFantasy_some_fields (hg i hi h2)
  refine ⟨hside, ?_, ?_⟩
  · rw [hres]
    by_cases hc : m.radiant_win = ((profs.get ⟨i, h2⟩).side == "radiant")
    · simp [hc]
    · simp [hc]
  · rw [hres]
    by_cases hc : m.radiant_win = ((profs.get ⟨i, h2⟩).side == "radiant")
    · simp [hc]
    · simp [hc]

/-- Closed instance of claim C5 at the example match: one radiant player on
the winning side. -/
theorem claim_C5_witness :
    (get_fantasy_points FANTASYq exampleMatch).map
      (fun profs => profs.map (fun prof => (prof.side, prof.result))) =
      some [("radiant", "win")] := by
  have hex : ∃ profs, get_fantasy_points FANTASYq exampleMatch = some profs := by
    cases hsome : get_fantasy_points FANTASYq exampleMatch with
    | none =>
      exfalso
      simp [get_fantasy_points, seqOption, playerFantasy, scoreEntries, scoreEntry,
        metricEntries, dictGet, dictGetD, FANTASYq, examplePlayer, exampleMatch]
        at hsome
    | some profs => exact ⟨profs, rfl⟩
  obtain ⟨profs, h⟩ := hex
  have hc := claim_C5_side_and_result FANTASYq exampleMatch profs h 0
    (by simp [exampleMatch])
  have hlen : profs.length = 1 := by simpa [exampleMatch] using hc.1
  obtain ⟨prof, rfl⟩ := List.length_eq_one.mp hlen
  obtain ⟨hside, hwin, -⟩ := hc.2 (by simp)
  simp [exampleMatch, examplePlayer] at hside hwin
  rw [h]
  simp [hside, hwin.mpr (by rw [hside])]

theorem dictGet_isSome_dictSet {α : Type} (d : List (String × α)) (k2 : String)
    (v : α) (k : String) (h : (dictGet d k).isSome = true) :
    (dictGet (dictSet d k2 v) k).isSome = true := by
  induction d with
  | nil => simp [dictGet] at h
  | cons kv rest ih =>
    rw [dictGet] at h
    by_cases hk : kv.1 = k2
    · rw [dictSet, if_pos hk, dictGet]
      by_cases hkk : k2 = k
      · rw [if_pos hkk]
        rfl
      · have hne : ¬ kv.1 = k := by rw [hk]; exact hkk
        rw [if_neg hkk]
        rw [if_neg hne] at h
        exact h
    · rw [dictSet, if_neg hk, dictGet]
      by_cases hx : kv.1 = k
      · rw [if_pos hx]
        rfl
      · rw [if_neg hx]
        rw [if_neg hx] at h
        exact ih h

theorem dictGet_isSome_dictUpdate {α : Type} (u d : List (String × α)) (k : String)
    (h : (dictGet d k).isSome = true) :
    (dictGet (dictUpdate d u) k).isSome = true := by
  induction u generalizing d with
  | nil => simpa [dictUpdate] using h
  | cons kv rest ih =>
    have heq : dictUpdate d (kv :: rest) = dictUpdate (dictSet d kv.1 kv.2) rest := rfl
    rw [heq]
    exact ih _ (dictGet_isSome_dictSet d kv.1 kv.2 k h)

theorem scoreEntries_isSome (fan : List (String × ℚ)) :
    ∀ es : List (String × ℚ), (∀ e ∈ es, (dictGet fan e.1).isSome = true) →
      (scoreEntries fan es).isSome = true := by
  intro es
  induction es with
  | nil =>
    intro _
    simp [scoreEntries]
  | cons e es ih =>
    intro hall
    have h1 : (dictGet fan e.1).isSome = true := hall e (List.mem_cons_self e es)
    rcases Option.isSome_iff_exists.mp h1 with ⟨mult, hm⟩
    have hse : (scoreEntry fan e).isSome = true := by
      simp [scoreEntry, hm]
    rcases Option.isSome_iff_exists.mp hse with ⟨x, hx⟩
    have hrec := ih (fun f hf => hall f (List.mem_cons_of_mem e hf))
    simp [scoreEntries, hx, Option.isSome_map', hrec]

theorem seqOption_isSome {α : Type} :
    ∀ l : List (Option α), (∀ o ∈ l, o.isSome = true) →
      (seqOption l).isSome = true := by
  intro l
  induction l with
  | nil =>
    intro _
    simp [seqOption]
  | cons o os ih =>
    intro hall
    rcases Option.isSome_iff_exists.mp (hall o (List.mem_cons_self o os)) with ⟨x, hx⟩
    subst hx
    simp only [seqOption, Option.isSome_map']
    exact ih (fun f hf => hall f (List.mem_cons_of_mem _ hf))

/-- Claim C10: the merged fantasy configuration contains every key of the
default `FANTASY` mapping for every override — an override can replace
values or add keys but never removes defaults — and therefore the
multiplier lookup of `get_fantasy_points` never fails: scoring succeeds on
every match record. -/
theorem claim_C10_fantasy_config_total (override : List (String × ℚ)) :
    (∀ k, (dictGet FANTASYq k).isSome = true →
      (dictGet (postInitFantasy (some override)) k).isSome = true) ∧
    (∀ m : MatchRec,
      (get_fantasy_points (postInitFantasy (some override)) m).isSome = true) := by
  have hpres : ∀ k, (dictGet FANTASYq k).isSome = true →
      (dictGet (postInitFantasy (some override)) k).isSome = true := by
    intro k h
    exact dictGet_isSome_dictUpdate override FANTASYq k h
  refine ⟨hpres, ?_⟩
  intro m
  unfold get_fantasy_points
  apply seqOption_isSome
  intro o ho
  rcases List.mem_map.mp ho with ⟨p, hp, rfl⟩
  simp only [playerFantasy, Option.isSome_map']
  apply scoreEntries_isSome
  intro e he
  apply hpres
  have hn : e.1 ∈ (metricEntries p).map Prod.fst := List.mem_map_of_mem Prod.fst he
  have hnames : (metricEntries p).map Prod.fst =
      ["kills", "deaths", "assists", "last_hits", "gold_per_min", "xp_per_min",
       "tower_kills", "tower_damage", "hero_damage", "courier_kills",
       "observer_kills", "sentry_kills", "roshan_kills", "teamfight",
       "observer_placed", "sentry_placed", "camps_stacked", "runes_grabbed",
       "first_blood", "stuns", "hero_healing"] := rfl
  rw [hnames] at hn
  have hforall : ∀ n ∈
      (["kills", "deaths", "assists", "last_hits", "gold_per_min", "xp_per_min",
        "tower_kills", "tower_damage", "hero_damage", "courier_kills",
        "observer_kills", "sentry_kills", "roshan_kills", "teamfight",
        "observer_placed", "sentry_placed", "camps_stacked", "runes_grabbed",
        "first_blood", "stuns", "hero_healing"] : List String),
      (dictGet FANTASYq n).isSome = true := by decide
  exact hforall e.1 hn

/-- Closed instance of claim C10 at a concrete override. -/
theorem claim_C10_witness :
    (dictGet (postInitFantasy (some [("kills", 1)])) "kills").isSome = true ∧
    (get_fantasy_points (postInitFantasy (some [("kills", 1)]))
      exampleMatch).isSome = true := by
  have h := claim_C10_fantasy_config_total [("kills", 1)]
  exact ⟨h.1 "kills" (by decide), h.2 exampleMatch⟩

/-- Claim C8: `get_constants` called with a resource argument that is
neither None, a string, nor a list logs an error and returns the `None`
sentinel; the embedding is a total function (no exception), and no
`self.get` call — hence no network request — is issued. -/
theorem claim_C8_invalid_resource_type (constNames : List String)
    (fetchConst : String → Json) :
    (get_constants constNames fetchConst ResourceArg.other).result = none ∧
    (get_constants constNames fetchConst ResourceArg.other).calls = [] ∧
    (get_constants constNames fetchConst ResourceArg.other).loggedError = true :=
  ⟨rfl, rfl, rfl⟩
